import Mathlib

/-
Shallow embedding of the agora-solana governance program
(src/programs/agora-solana/src/lib.rs) and verification of its
natural-language specification.

Modelling conventions:
- Solana `Pubkey` values are abstracted as natural numbers.
- `u64`/`u16` values are modelled as `Nat`; no claim in scope exercises
  overflow (the stubbed voting-power oracle returns 0, so tallies stay 0
  in reachable states, and the concrete scenarios use small numbers).
- `Clock::get()?.slot` is passed in explicitly as a `slot : Nat` argument.
- A Rust instruction returns `Result<()>`; effects on the touched accounts
  are made explicit by returning the updated records. A Rust panic
  (`unwrap()` on `None`, or integer division by zero, both of which abort
  the transaction) is modelled by the distinguished outcome `crash`.
- `governor.proposal_types` is a `Vec<ProposalType>` in the source, read
  with `.get(&code)`; the registry is therefore modelled as a list indexed
  by the type code (the "ordered mapping from a small integer type code").
-/

namespace AgoraGovernor

/-- Account identity (a Solana public key), abstracted as a natural number. -/
abbrev Pubkey := Nat

/-- Policy template `ProposalType` (lib.rs lines 218-224): quorum and
approval threshold in parts-per-10000, a name, and an optional module. -/
structure ProposalType where
  quorum : Nat
  approval_threshold : Nat
  name : String
  module : Option Pubkey
deriving Repr, DecidableEq

/-- The `Governor` account (lib.rs lines 184-194). -/
structure Governor where
  admin : Pubkey
  manager : Pubkey
  voting_delay : Nat
  voting_period : Nat
  proposal_threshold : Nat
  proposal_count : Nat
  total_supply : Nat
  proposal_types : List ProposalType
deriving Repr, DecidableEq

/-- The `Proposal` account (lib.rs lines 196-208). -/
structure Proposal where
  id : Nat
  proposer : Pubkey
  description : String
  proposal_type : Nat
  start_block : Nat
  end_block : Nat
  for_votes : Nat
  against_votes : Nat
  executed : Bool
  canceled : Bool
deriving Repr, DecidableEq

/-- The `Vote` account (lib.rs lines 210-216). -/
structure Vote where
  voter : Pubkey
  proposal_id : Nat
  support : Bool
  weight : Nat
deriving Repr, DecidableEq

/-- The `GovernorError` taxonomy (lib.rs lines 226-244). -/
inductive GovernorError where
  | InsufficientProposerVotes
  | InvalidProposalType
  | VotingPeriodInactive
  | ProposalAlreadyExecuted
  | ProposalCanceled
  | VotingPeriodActive
  | QuorumNotReached
  | ApprovalThresholdNotMet
deriving Repr, DecidableEq

/-- Outcome of one instruction: success with the updated accounts, a typed
error (Anchor `require!` / `ok_or` failure), or `crash` for a Rust panic
(`unwrap()` on `None`, integer division by zero), which aborts the
transaction without producing a `GovernorError`. -/
inductive TxResult (α : Type) where
  | ok (a : α)
  | err (e : GovernorError)
  | crash
deriving Repr, DecidableEq

/-- True exactly when the outcome is success. -/
def TxResult.isOk {α : Type} : TxResult α → Bool
  | .ok _ => true
  | _ => false

/-- `Governor::get_votes` (lib.rs lines 249-253): the voting-power lookup is
stubbed in the source and always returns 0. -/
def Governor.get_votes (_g : Governor) (_account : Pubkey) (_block : Nat) : Nat := 0

/-- The `initialize` instruction (lib.rs lines 10-24). It sets admin,
manager, voting_delay, voting_period, proposal_threshold and
proposal_count := 0 on the freshly `init`-allocated (hence zeroed) governor
account, so `total_supply` is 0 and `proposal_types` is empty. It performs
no input validation and always succeeds. -/
def initializeGovernor (admin manager voting_delay voting_period proposal_threshold : Pubkey) :
    TxResult Governor :=
  .ok { admin := admin, manager := manager, voting_delay := voting_delay,
        voting_period := voting_period, proposal_threshold := proposal_threshold,
        proposal_count := 0, total_supply := 0, proposal_types := [] }

/-- The `create_proposal` instruction (lib.rs lines 26-64). The source
checks the proposer-power `require!` first (lines 35-39) and only then
performs the registry lookup with `ok_or(InvalidProposalType)` (line 41). -/
def create_proposal (g : Governor) (proposer : Pubkey) (description : String)
    (proposal_type : Nat) (slot : Nat) : TxResult (Governor × Proposal) :=
  if g.get_votes proposer slot ≥ g.proposal_threshold ∨ proposer = g.manager then
    match g.proposal_types.get? proposal_type with
    | none => .err .InvalidProposalType
    | some _info =>
      let p : Proposal :=
        { id := g.proposal_count, proposer := proposer, description := description,
          proposal_type := proposal_type,
          start_block := slot + g.voting_delay,
          end_block := slot + g.voting_delay + g.voting_period,
          for_votes := 0, against_votes := 0, executed := false, canceled := false }
      .ok ({ g with proposal_count := g.proposal_count + 1 }, p)
  else .err .InsufficientProposerVotes

/-- The `cast_vote` instruction (lib.rs lines 66-102): requires
`slot >= start_block && slot <= end_block` (inclusive window), snapshots the
voter's weight at `proposal.start_block`, records the Vote account, and adds
the weight to `for_votes` or `against_votes`. The governor account is only
read. -/
def cast_vote (g : Governor) (p : Proposal) (voter : Pubkey) (proposal_id : Nat)
    (support : Bool) (slot : Nat) : TxResult (Proposal × Vote) :=
  if p.start_block ≤ slot ∧ slot ≤ p.end_block then
    let voter_weight := g.get_votes voter p.start_block
    let v : Vote :=
      { voter := voter, proposal_id := proposal_id, support := support,
        weight := voter_weight }
    let p' : Proposal :=
      if support then { p with for_votes := p.for_votes + voter_weight }
      else { p with against_votes := p.against_votes + voter_weight }
    .ok (p', v)
  else .err .VotingPeriodInactive

/-- The `execute_proposal` instruction (lib.rs lines 104-134). Checks, in
source order: `!executed`, `!canceled`, `slot > end_block`; then the
registry lookup with `.unwrap()` (line 113), which panics when the type is
missing; then the `approval_threshold` division (line 115), which panics
when `for_votes + against_votes = 0`; both divisions happen before the
quorum and approval `require!` checks. -/
def execute_proposal (g : Governor) (p : Proposal) (slot : Nat) : TxResult Proposal :=
  if p.executed then .err .ProposalAlreadyExecuted
  else if p.canceled then .err .ProposalCanceled
  else if ¬ p.end_block < slot then .err .VotingPeriodActive
  else
    match g.proposal_types.get? p.proposal_type with
    | none => .crash
    | some info =>
      if p.for_votes + p.against_votes = 0 then .crash
      else
        let quorum := g.total_supply * info.quorum / 10000
        let approval_pct := p.for_votes * 10000 / (p.for_votes + p.against_votes)
        if ¬ p.for_votes + p.against_votes ≥ quorum then .err .QuorumNotReached
        else if ¬ approval_pct ≥ info.approval_threshold then .err .ApprovalThresholdNotMet
        else .ok { p with executed := true }

/-! Concrete states used by the scenario theorems and witnesses. -/

/-- Governor of the spec's end-to-end scenario: totalSupply 1000, one
registered proposal type with quorum 2000 (20%) and approval threshold
5000 (50%). -/
def scenarioGovernor : Governor :=
  { admin := 1, manager := 2, voting_delay := 1, voting_period := 9,
    proposal_threshold := 10, proposal_count := 1, total_supply := 1000,
    proposal_types :=
      [{ quorum := 2000, approval_threshold := 5000, name := "default", module := none }] }

/-- Proposal of the end-to-end scenario after both votes: forVotes 150,
againstVotes 100, window [11, 20], neither executed nor canceled. -/
def scenarioProposal : Proposal :=
  { id := 0, proposer := 3, description := "scenario", proposal_type := 0,
    start_block := 11, end_block := 20, for_votes := 150, against_votes := 100,
    executed := false, canceled := false }

/-- The scenario proposal with no votes cast at all. -/
def zeroVotesProposal : Proposal :=
  { scenarioProposal with for_votes := 0, against_votes := 0 }

/-- The scenario governor with an empty proposal-type registry. -/
def emptyRegistryGovernor : Governor :=
  { scenarioGovernor with proposal_types := [] }

/-- C1: on a proposal with forVotes = againstVotes = 0 whose type exists and
has positive quorum (2000), execute_proposal after endTime does NOT return
QuorumNotReached: the approval-percentage division at lib.rs line 115 runs
before the quorum check and divides by totalCast = 0, so the transaction
panics (crash). This contradicts the spec's zero-totalCast guard. -/
theorem execute_zero_votes_crashes :
    execute_proposal scenarioGovernor zeroVotesProposal 21 = .crash ∧
    (0 : Nat) < 2000 ∧
    execute_proposal scenarioGovernor zeroVotesProposal 21 ≠ .err .QuorumNotReached := by
  refine ⟨rfl, by decide, by decide⟩

/-- C3: when the proposal's type code is absent from the registry at
execution time (empty registry here), execute_proposal does NOT return
InvalidProposalType: the `.unwrap()` at lib.rs line 113 panics, so the
transaction crashes rather than surfacing the typed error the spec
requires. -/
theorem execute_missing_type_crashes :
    execute_proposal emptyRegistryGovernor scenarioProposal 21 = .crash ∧
    execute_proposal emptyRegistryGovernor scenarioProposal 21 ≠ .err .InvalidProposalType := by
  refine ⟨rfl, by decide⟩

/-- C5 counterexample: initialize with voting_period = 0 does not fail; it
succeeds and constructs a Governor with voting_period 0, because the source
performs no input validation at all. -/
theorem initializeGovernor_zero_period_succeeds :
    initializeGovernor 1 2 5 0 10 =
      .ok { admin := 1, manager := 2, voting_delay := 5, voting_period := 0,
            proposal_threshold := 10, proposal_count := 0, total_supply := 0,
            proposal_types := [] } := rfl

/-- C5 amended: initialize performs no input validation; for every input,
including voting_period = 0, it succeeds and constructs the Governor with
the given fields, proposal_count 0, total_supply 0 and an empty registry. -/
theorem initializeGovernor_no_validation
    (admin manager voting_delay voting_period proposal_threshold : Nat) :
    initializeGovernor admin manager voting_delay voting_period proposal_threshold =
      .ok { admin := admin, manager := manager, voting_delay := voting_delay,
            voting_period := voting_period, proposal_threshold := proposal_threshold,
            proposal_count := 0, total_supply := 0, proposal_types := [] } := rfl

/-- C6: the end-to-end scenario. With totalSupply 1000, quorum 2000 and
approval threshold 5000, a proposal with forVotes 150 and againstVotes 100
executed after endTime succeeds and is marked executed; quorumNeed is 200
and approvalPct is 6000. -/
theorem execute_scenario_succeeds :
    execute_proposal scenarioGovernor scenarioProposal 21 =
      .ok { scenarioProposal with executed := true } ∧
    scenarioGovernor.total_supply * 2000 / 10000 = 200 ∧
    scenarioProposal.for_votes + scenarioProposal.against_votes = 250 ∧
    scenarioProposal.for_votes * 10000 /
      (scenarioProposal.for_votes + scenarioProposal.against_votes) = 6000 := by
  refine ⟨rfl, rfl, rfl, rfl⟩

/-- C2 counterexample: with an empty registry (type code 0 absent), a
proposer (key 3) who is not the manager (key 2) and whose stubbed voting
power 0 is below the threshold 10 gets InsufficientProposerVotes, not
InvalidProposalType: the source checks proposer power before the registry
lookup, the opposite of the claimed order. -/
theorem create_proposal_power_checked_first :
    create_proposal emptyRegistryGovernor 3 "d" 0 0 = .err .InsufficientProposerVotes ∧
    create_proposal emptyRegistryGovernor 3 "d" 0 0 ≠ .err .InvalidProposalType := by
  refine ⟨rfl, by decide⟩

/-- C2 amended: create_proposal checks its preconditions in order with the
first failure winning, but the proposer-power test comes first: it fails
with InsufficientProposerVotes unless the proposer's voting power at now is
at least the threshold or the proposer is the manager; only when that
passes is the registry lookup applied, failing with InvalidProposalType
when the type code is absent. -/
theorem create_proposal_check_order (g : Governor) (proposer : Pubkey)
    (d : String) (ty slot : Nat) :
    (¬ (g.get_votes proposer slot ≥ g.proposal_threshold ∨ proposer = g.manager) →
      create_proposal g proposer d ty slot = .err .InsufficientProposerVotes) ∧
    ((g.get_votes proposer slot ≥ g.proposal_threshold ∨ proposer = g.manager) →
      g.proposal_types.get? ty = none →
      create_proposal g proposer d ty slot = .err .InvalidProposalType) := by
  constructor
  · intro h
    unfold create_proposal
    rw [if_neg h]
  · intro h hnone
    unfold create_proposal
    rw [if_pos h, hnone]

/-- Witness for C2's amended theorem at concrete inputs: the manager (key 2)
with zero power passes the power check and hits InvalidProposalType on the
empty registry, while a stranger (key 4) fails with
InsufficientProposerVotes. -/
theorem create_proposal_check_order_witness :
    create_proposal emptyRegistryGovernor 2 "d" 0 0 = .err .InvalidProposalType ∧
    create_proposal emptyRegistryGovernor 4 "d" 0 0 = .err .InsufficientProposerVotes :=
  ⟨(create_proposal_check_order emptyRegistryGovernor 2 "d" 0 0).2 (Or.inr rfl) rfl,
   (create_proposal_check_order emptyRegistryGovernor 4 "d" 0 0).1 (by decide)⟩

/-- C7: cast_vote fails with VotingPeriodInactive at every slot strictly
before start_block or strictly after end_block, and its time-window
precondition passes (the call succeeds) at every slot in the inclusive
interval from start_block to end_block. -/
theorem cast_vote_window (g : Governor) (p : Proposal) (voter pid : Nat)
    (support : Bool) (slot : Nat) :
    (slot < p.start_block ∨ p.end_block < slot →
      cast_vote g p voter pid support slot = .err .VotingPeriodInactive) ∧
    (p.start_block ≤ slot → slot ≤ p.end_block →
      (cast_vote g p voter pid support slot).isOk = true) := by
  constructor
  · intro h
    unfold cast_vote
    rw [if_neg (by omega)]
  · intro h1 h2
    unfold cast_vote
    rw [if_pos ⟨h1, h2⟩]
    rfl

/-- Witness for C7 at concrete inputs: window [11, 20], slot 10 is rejected
with VotingPeriodInactive and slot 11 succeeds. -/
theorem cast_vote_window_witness :
    cast_vote scenarioGovernor zeroVotesProposal 5 0 true 10 =
      .err .VotingPeriodInactive ∧
    (cast_vote scenarioGovernor zeroVotesProposal 5 0 true 11).isOk = true :=
  ⟨(cast_vote_window scenarioGovernor zeroVotesProposal 5 0 true 10).1
      (Or.inl (by decide)),
   (cast_vote_window scenarioGovernor zeroVotesProposal 5 0 true 11).2
      (by decide) (by decide)⟩

/-- C8: every successful cast_vote records the voter, proposal id and
support as passed, snapshots the weight with get_votes at
proposal.start_block (not at the vote slot), and adds exactly that weight
to for_votes when support is true and to against_votes otherwise, leaving
the opposite tally unchanged; a zero weight is accepted without error
whenever the window check passes. -/
theorem cast_vote_snapshot_effect (g : Governor) (p : Proposal) (voter pid : Nat)
    (support : Bool) (slot : Nat) (p' : Proposal) (v : Vote) :
    (cast_vote g p voter pid support slot = .ok (p', v) →
      v.voter = voter ∧ v.proposal_id = pid ∧ v.support = support ∧
      v.weight = g.get_votes voter p.start_block ∧
      (support = true → p'.for_votes = p.for_votes + v.weight ∧
        p'.against_votes = p.against_votes) ∧
      (support = false → p'.against_votes = p.against_votes + v.weight ∧
        p'.for_votes = p.for_votes)) ∧
    (p.start_block ≤ slot → slot ≤ p.end_block →
      g.get_votes voter p.start_block = 0 →
      (cast_vote g p voter pid support slot).isOk = true) := by
  constructor
  · intro h
    unfold cast_vote at h
    split at h
    · injection h with h
      injection h with hp hv
      subst hp
      subst hv
      cases support <;> simp
    · exact TxResult.noConfusion h
  · intro h1 h2 _
    unfold cast_vote
    rw [if_pos ⟨h1, h2⟩]
    rfl

/-- Witness for C8 at concrete inputs: a supporting vote at slot 12 on the
scenario's zero-votes proposal records weight get_votes(5, 11) = 0 and the
tallies change by exactly that weight. -/
theorem cast_vote_snapshot_effect_witness :
    (⟨5, 0, true, 0⟩ : Vote).weight =
      scenarioGovernor.get_votes 5 zeroVotesProposal.start_block ∧
    (cast_vote scenarioGovernor zeroVotesProposal 5 0 true 12).isOk = true :=
  ⟨((cast_vote_snapshot_effect scenarioGovernor zeroVotesProposal 5 0 true 12
      { zeroVotesProposal with for_votes := zeroVotesProposal.for_votes + 0 }
      ⟨5, 0, true, 0⟩).1 rfl).2.2.2.1,
   (cast_vote_snapshot_effect scenarioGovernor zeroVotesProposal 5 0 true 12
      { zeroVotesProposal with for_votes := zeroVotesProposal.for_votes + 0 }
      ⟨5, 0, true, 0⟩).2 (by decide) (by decide) rfl⟩

/-- Every successful execute_proposal returns exactly the input proposal
with the executed flag set to true. -/
theorem execute_ok_shape (g : Governor) (p : Proposal) (slot : Nat) (p' : Proposal)
    (h : execute_proposal g p slot = .ok p') : p' = { p with executed := true } := by
  simp only [execute_proposal] at h
  split at h
  · exact TxResult.noConfusion h
  · split at h
    · exact TxResult.noConfusion h
    · split at h
      · exact TxResult.noConfusion h
      · split at h
        · exact TxResult.noConfusion h
        · split at h
          · exact TxResult.noConfusion h
          · split at h
            · exact TxResult.noConfusion h
            · split at h
              · exact TxResult.noConfusion h
              · injection h with h
                exact h.symm

/-- C9: once execute_proposal succeeds on a proposal, every later
execute_proposal call on the resulting proposal fails with
ProposalAlreadyExecuted, whatever governor state and slot it runs with;
moreover the executed check comes first: any proposal with executed = true
is rejected with ProposalAlreadyExecuted regardless of its canceled flag,
its times, its tallies or the registry. -/
theorem execute_already_executed_guard (g g2 : Governor) (p p2 : Proposal)
    (slot slot2 : Nat) :
    (execute_proposal g p slot = .ok p2 →
      execute_proposal g2 p2 slot2 = .err .ProposalAlreadyExecuted) ∧
    (∀ q : Proposal, q.executed = true →
      execute_proposal g2 q slot2 = .err .ProposalAlreadyExecuted) := by
  have hexec : ∀ q : Proposal, q.executed = true →
      execute_proposal g2 q slot2 = .err .ProposalAlreadyExecuted := by
    intro q hq
    unfold execute_proposal
    rw [if_pos hq]
  refine ⟨?_, hexec⟩
  intro h
  rw [execute_ok_shape g p slot p2 h]
  exact hexec _ rfl

/-- Witness for C9 at concrete inputs: executing the scenario proposal
succeeds, and re-executing the resulting proposal fails with
ProposalAlreadyExecuted. -/
theorem execute_already_executed_guard_witness :
    execute_proposal scenarioGovernor { scenarioProposal with executed := true } 22 =
      .err .ProposalAlreadyExecuted :=
  (execute_already_executed_guard scenarioGovernor scenarioGovernor scenarioProposal
    { scenarioProposal with executed := true } 21 22).1 rfl

/-- The arguments of one cast_vote call in a sequence of votes. -/
structure VoteCall where
  voter : Pubkey
  proposal_id : Nat
  support : Bool
  slot : Nat
deriving Repr, DecidableEq

/-- Apply one cast_vote call to a proposal: on success keep the updated
proposal; a failed call leaves the proposal unchanged (Anchor rolls back
the transaction). -/
def applyVote (g : Governor) (p : Proposal) (c : VoteCall) : Proposal :=
  match cast_vote g p c.voter c.proposal_id c.support c.slot with
  | .ok (p', _) => p'
  | _ => p

/-- Apply a sequence of cast_vote calls from left to right. -/
def applyVotes (g : Governor) (p : Proposal) : List VoteCall → Proposal
  | [] => p
  | c :: cs => applyVotes g (applyVote g p c) cs

/-- One cast_vote call never decreases either tally. -/
theorem applyVote_tallies_mono (g : Governor) (p : Proposal) (c : VoteCall) :
    p.for_votes ≤ (applyVote g p c).for_votes ∧
    p.against_votes ≤ (applyVote g p c).against_votes := by
  unfold applyVote cast_vote
  by_cases hw : p.start_block ≤ c.slot ∧ c.slot ≤ p.end_block
  · rw [if_pos hw]
    cases hs : c.support <;> simp [Nat.le_add_right]
  · rw [if_neg hw]
    exact ⟨Nat.le_refl _, Nat.le_refl _⟩

/-- C10: across any sequence of cast_vote calls the tallies for_votes and
against_votes are non-decreasing, and the only other operation that writes
a proposal, execute_proposal, leaves both tallies unchanged when it
succeeds. -/
theorem tallies_nondecreasing (g : Governor) (p : Proposal) (cs : List VoteCall)
    (p' : Proposal) (slot : Nat) :
    (p.for_votes ≤ (applyVotes g p cs).for_votes ∧
      p.against_votes ≤ (applyVotes g p cs).against_votes) ∧
    (execute_proposal g p slot = .ok p' →
      p'.for_votes = p.for_votes ∧ p'.against_votes = p.against_votes) := by
  constructor
  · induction cs generalizing p with
    | nil => exact ⟨Nat.le_refl _, Nat.le_refl _⟩
    | cons c cs ih =>
      have h1 := applyVote_tallies_mono g p c
      have h2 := ih (applyVote g p c)
      simp only [applyVotes]
      exact ⟨Nat.le_trans h1.1 h2.1, Nat.le_trans h1.2 h2.2⟩
  · intro h
    rw [execute_ok_shape g p slot p' h]
    exact ⟨rfl, rfl⟩

/-- Witness for C10 at concrete inputs: a two-call vote sequence on the
zero-votes proposal keeps both tallies at least their initial values, and a
successful execution leaves the scenario tallies unchanged. -/
theorem tallies_nondecreasing_witness :
    (zeroVotesProposal.for_votes ≤
      (applyVotes scenarioGovernor zeroVotesProposal
        [⟨5, 0, true, 12⟩, ⟨6, 0, false, 13⟩]).for_votes) ∧
    ({ scenarioProposal with executed := true } : Proposal).for_votes =
      scenarioProposal.for_votes :=
  ⟨(tallies_nondecreasing scenarioGovernor zeroVotesProposal
      [⟨5, 0, true, 12⟩, ⟨6, 0, false, 13⟩]
      { scenarioProposal with executed := true } 21).1.1,
   ((tallies_nondecreasing scenarioGovernor scenarioProposal []
      { scenarioProposal with executed := true } 21).2 rfl).1⟩

/-- One state transition of the Governor account through the program's
instructions. Only create_proposal writes the governor account (cast_vote
and execute_proposal take it by shared reference in the source), and the
TODO at lib.rs lines 136-137 records that no instruction for setting
proposal types exists. -/
inductive GovStep : Governor → Governor → Prop where
  | create (g : Governor) (proposer : Pubkey) (d : String) (ty slot : Nat)
      (g' : Governor) (p : Proposal)
      (h : create_proposal g proposer d ty slot = .ok (g', p)) : GovStep g g'

/-- Governor states reachable through the program's instructions, starting
from initialize. -/
inductive ReachableGovernor : Governor → Prop where
  | start (admin manager voting_delay voting_period proposal_threshold : Nat)
      (g : Governor)
      (h : initializeGovernor admin manager voting_delay voting_period
            proposal_threshold = .ok g) : ReachableGovernor g
  | step (g g' : Governor) (hr : ReachableGovernor g) (hs : GovStep g g') :
      ReachableGovernor g'

/-- A successful create_proposal leaves the proposal-type registry exactly
as it was. -/
theorem create_proposal_ok_registry (g : Governor) (proposer : Pubkey)
    (d : String) (ty slot : Nat) (g' : Governor) (p : Proposal)
    (h : create_proposal g proposer d ty slot = .ok (g', p)) :
    g'.proposal_types = g.proposal_types := by
  simp only [create_proposal] at h
  split at h
  · split at h
    · exact TxResult.noConfusion h
    · injection h with h
      injection h with h1 h2
      rw [← h1]
  · exact TxResult.noConfusion h

/-- C4: in every governor state reachable through the program's
instructions the proposal-type registry is empty, and therefore every
create_proposal call that passes the proposer-power check fails its
registry lookup with InvalidProposalType. -/
theorem reachable_registry_empty (g : Governor) (hg : ReachableGovernor g) :
    g.proposal_types = [] ∧
    ∀ (proposer : Pubkey) (d : String) (ty slot : Nat),
      g.get_votes proposer slot ≥ g.proposal_threshold ∨ proposer = g.manager →
      create_proposal g proposer d ty slot = .err .InvalidProposalType := by
  have hempty : g.proposal_types = [] := by
    induction hg with
    | start a m vd vp pt g0 h =>
      injection h with h
      rw [← h]
    | step g0 g1 hr hs ih =>
      cases hs with
      | create proposer d ty slot g1x p h =>
        rw [create_proposal_ok_registry _ proposer d ty slot _ p h, ih]
  refine ⟨hempty, ?_⟩
  intro proposer d ty slot hpow
  unfold create_proposal
  rw [if_pos hpow, hempty, List.get?_nil]

/-- The governor produced by initialize with proposal threshold 0, used to
witness C4. -/
def initialGovernor : Governor :=
  { admin := 1, manager := 2, voting_delay := 3, voting_period := 4,
    proposal_threshold := 0, proposal_count := 0, total_supply := 0,
    proposal_types := [] }

/-- Witness for C4 at concrete inputs: the freshly initialized governor is
reachable, its threshold 0 lets the stubbed power 0 pass the power check,
and create_proposal still fails with InvalidProposalType. -/
theorem reachable_registry_empty_witness :
    create_proposal initialGovernor 7 "x" 0 0 = .err .InvalidProposalType :=
  (reachable_registry_empty initialGovernor
    (.start 1 2 3 4 0 initialGovernor rfl)).2 7 "x" 0 0 (Or.inl (by decide))

end AgoraGovernor
